import Mathlib

/-!
Shallow embedding of the rcpfit backend's workout-session core
(`src/backend/app/api/routers/workouts.py`, `analytics.py` and the models in
`src/backend/app/models/`).

Modelling choices:
* Python `float` values (weights, epley scores) are modelled by `Rat`;
  Python `int` reps by `Int`; row ids, user ids and timestamps by `Nat`.
* The relational store is a `DB` record of lists of rows.  The SQL query
  `select(...).where(...)` with `scalar_one_or_none` is modelled by
  `List.find?`; `ORDER BY` by a stable `List.mergeSort`; the per-user
  uniqueness constraint on `workout_drafts.user_id` appears as the
  `drafts_unique` well-formedness predicate where a proof needs it.
* Each FastAPI handler becomes a function `... → Except Err R × DB`: the
  second component is the store after the request (unchanged on every error
  path, mirroring transaction rollback), the first the HTTP outcome.
* `datetime.utcnow()` is modelled by the `now` field of the `DB`; fresh
  primary keys come from the `next_id` counter (SQLAlchemy flush).
* The `Template`/`Split` ownership join (`Template.split.has(user_id=...)`)
  is collapsed into a `user_id` field on the template row, and the
  `Split` table itself is not modelled; no claim depends on splits.
-/

namespace Rcpfit

/-- HTTP error outcomes raised by the handlers: `notFound` is 404,
`badRequest` is 400 (the "Exercise already in workout" conflict). -/
inductive Err where
  | notFound
  | badRequest
deriving DecidableEq, Repr

/-- Schema `SetData`: a single set inside a draft exercise
(`reps: int | None`, `weight: float | None`, `completed: bool`). -/
structure SetData where
  reps : Option Int := none
  weight : Option Rat := none
  completed : Bool := false
deriving DecidableEq, Repr

/-- Schema `ExerciseData`: an exercise inside the draft `session_data`. -/
structure ExerciseData where
  definition_id : Nat
  name : String
  sets : List SetData := []
  is_done : Bool := false
deriving DecidableEq, Repr

/-- Schema `SessionData`: the whole JSONB draft payload. -/
structure SessionData where
  exercises : List ExerciseData := []
deriving DecidableEq, Repr

/-- Model row `ExerciseDefinition` (table `exercise_definitions`). -/
structure ExerciseDefinition where
  id : Nat
  user_id : Nat
  name : String
deriving DecidableEq, Repr, Inhabited

/-- Model row `TemplateExercise` (table `template_exercises`), keeping only
the fields `start_workout` reads. -/
structure TemplateExercise where
  exercise_definition_id : Nat
  order : Nat
deriving DecidableEq, Repr

/-- Model row `Template`; `user_id` stands for ownership through the
template's split (`Template.split.has(user_id=...)`). -/
structure Template where
  id : Nat
  user_id : Nat
  name : String
  template_exercises : List TemplateExercise := []
deriving DecidableEq, Repr

/-- Model row `WorkoutDraft` (table `workout_drafts`; `user_id` carries a
uniqueness constraint in the schema). -/
structure WorkoutDraft where
  id : Nat
  user_id : Nat
  template_id : Option Nat := none
  session_data : SessionData
  started_at : Nat
  updated_at : Nat
deriving DecidableEq, Repr

/-- Model row `CompletedSession` (table `completed_sessions`). -/
structure CompletedSession where
  id : Nat
  user_id : Nat
  template_id : Option Nat := none
  started_at : Nat
  completed_at : Nat
  session_score : Rat := 0
deriving DecidableEq, Repr

/-- Model row `CompletedSet` (table `completed_sets`). -/
structure CompletedSet where
  id : Nat
  session_id : Nat
  exercise_definition_id : Nat
  set_number : Nat
  reps : Int
  weight : Rat
  epley_score : Rat
deriving DecidableEq, Repr

/-- The relational store plus the request clock. -/
structure DB where
  exercise_definitions : List ExerciseDefinition := []
  templates : List Template := []
  drafts : List WorkoutDraft := []
  completed_sessions : List CompletedSession := []
  completed_sets : List CompletedSet := []
  next_id : Nat := 1
  now : Nat := 0
deriving DecidableEq, Repr

/-- Response schema `WorkoutDraftRead`. -/
structure WorkoutDraftRead where
  id : Nat
  template_id : Option Nat
  session_data : SessionData
  started_at : Nat
  updated_at : Nat
deriving DecidableEq, Repr

/-- Response schema `CompletedSetRead`. -/
structure CompletedSetRead where
  id : Nat
  exercise_definition_id : Nat
  set_number : Nat
  reps : Int
  weight : Rat
  epley_score : Rat
deriving DecidableEq, Repr

/-- Response schema `CompletedSessionRead`. -/
structure CompletedSessionRead where
  id : Nat
  template_id : Option Nat
  started_at : Nat
  completed_at : Nat
  session_score : Rat
  completed_sets : List CompletedSetRead := []
deriving DecidableEq, Repr

/-- Query `select(WorkoutDraft).where(WorkoutDraft.user_id == current_user.id)`
with `scalar_one_or_none()` (at most one row by the uniqueness constraint). -/
def find_draft (db : DB) (u : Nat) : Option WorkoutDraft :=
  db.drafts.find? (fun d => d.user_id == u)

/-- Query for an exercise definition owned by the user, as in
`add_exercise_to_draft` / `get_exercise_history` / `get_exercise_summary`. -/
def find_owned_exercise (db : DB) (u : Nat) (eid : Nat) : Option ExerciseDefinition :=
  db.exercise_definitions.find? (fun e => e.id == eid && e.user_id == u)

/-- Serialization of a `WorkoutDraft` row into `WorkoutDraftRead`, the body
shared by `start_workout`, `get_draft`, `update_draft` and
`add_exercise_to_draft`. -/
def draft_read (d : WorkoutDraft) : WorkoutDraftRead :=
  { id := d.id
    template_id := d.template_id
    session_data := d.session_data
    started_at := d.started_at
    updated_at := d.updated_at }

/-- Fresh `SetData()`: one empty set (`reps=None, weight=None,
completed=False`). -/
def empty_set : SetData := {}

/-- Handler `start_workout` (POST /workouts/start).  If the user already has
a draft it is returned unchanged; otherwise a draft is created, copying the
exercises of the requested template (owned via its split, sorted by `order`,
each with one empty set) when `template_id` is given. -/
def start_workout (u : Nat) (template_id : Option Nat) (db : DB) :
    Except Err WorkoutDraftRead × DB :=
  match find_draft db u with
  | some existing_draft => (Except.ok (draft_read existing_draft), db)
  | none =>
    match template_id with
    | some tid =>
      match db.templates.find? (fun t => t.id == tid && t.user_id == u) with
      | none => (Except.error Err.notFound, db)
      | some t =>
        let ordered := t.template_exercises.mergeSort (fun a b => a.order ≤ b.order)
        let exercises_data : List ExerciseData := ordered.map (fun te =>
          let ed := (db.exercise_definitions.find?
            (fun e => e.id == te.exercise_definition_id)).getD default
          { definition_id := ed.id
            name := ed.name
            sets := [empty_set]
            is_done := false })
        let new_draft : WorkoutDraft :=
          { id := db.next_id
            user_id := u
            template_id := template_id
            session_data := { exercises := exercises_data }
            started_at := db.now
            updated_at := db.now }
        (Except.ok (draft_read new_draft),
          { db with drafts := db.drafts ++ [new_draft], next_id := db.next_id + 1 })
    | none =>
      let new_draft : WorkoutDraft :=
        { id := db.next_id
          user_id := u
          template_id := none
          session_data := { exercises := [] }
          started_at := db.now
          updated_at := db.now }
      (Except.ok (draft_read new_draft),
        { db with drafts := db.drafts ++ [new_draft], next_id := db.next_id + 1 })

/-- Handler `get_draft` (GET /workouts/draft). -/
def get_draft (u : Nat) (db : DB) : Except Err WorkoutDraftRead × DB :=
  match find_draft db u with
  | none => (Except.error Err.notFound, db)
  | some d => (Except.ok (draft_read d), db)

/-- Handler `update_draft` (PUT /workouts/draft): wholesale overwrite of the
draft's `session_data`, bumping `updated_at`.  No validation of the payload
content is performed. -/
def update_draft (u : Nat) (payload : SessionData) (db : DB) :
    Except Err WorkoutDraftRead × DB :=
  match find_draft db u with
  | none => (Except.error Err.notFound, db)
  | some d =>
    let d' := { d with session_data := payload, updated_at := db.now }
    (Except.ok (draft_read d'),
      { db with drafts := db.drafts.map (fun x => if x.id == d.id then d' else x) })

/-- Handler `add_exercise_to_draft` (POST /workouts/draft/add-exercise). -/
def add_exercise_to_draft (u : Nat) (exercise_definition_id : Nat) (db : DB) :
    Except Err WorkoutDraftRead × DB :=
  match find_draft db u with
  | none => (Except.error Err.notFound, db)
  | some d =>
    match find_owned_exercise db u exercise_definition_id with
    | none => (Except.error Err.notFound, db)
    | some ex =>
      if d.session_data.exercises.any (fun e => e.definition_id == ex.id) then
        (Except.error Err.badRequest, db)
      else
        let new_exercise : ExerciseData :=
          { definition_id := ex.id, name := ex.name, sets := [empty_set], is_done := false }
        let d' := { d with
          session_data := { exercises := d.session_data.exercises ++ [new_exercise] }
          updated_at := db.now }
        (Except.ok (draft_read d'),
          { db with drafts := db.drafts.map (fun x => if x.id == d.id then d' else x) })

/-- Epley score of one set: `weight * (1 + reps / 30)`. -/
def epley_score (weight : Rat) (reps : Int) : Rat :=
  weight * (1 + (reps : Rat) / 30)

/-- Validity test applied at finalize time:
`reps is not None and weight is not None and reps > 0 and weight > 0`. -/
def is_valid_set (s : SetData) : Bool :=
  s.reps.isSome && s.weight.isSome
    && decide (0 < s.reps.getD 0) && decide (0 < s.weight.getD 0)

/-- A buffered pending completed set built inside the `finish_workout` loop
(the dicts collected in `completed_sets_data`). -/
structure PendingSet where
  exercise_definition_id : Nat
  set_number : Nat
  reps : Int
  weight : Rat
  epley_score : Rat
deriving DecidableEq, Repr

/-- Inner loop of `finish_workout` over one exercise's `sets`, carrying the
per-exercise `set_number` counter `k` (0 at entry to each exercise): a valid
set is recorded with number `k+1` and bumps the counter, an invalid set is
skipped without consuming a number. -/
def process_sets (defId : Nat) (k : Nat) : List SetData → List PendingSet
  | [] => []
  | s :: rest =>
    if is_valid_set s then
      { exercise_definition_id := defId
        set_number := k + 1
        reps := s.reps.getD 0
        weight := s.weight.getD 0
        epley_score := epley_score (s.weight.getD 0) (s.reps.getD 0) }
        :: process_sets defId (k + 1) rest
    else
      process_sets defId k rest

/-- Outer loop of `finish_workout`: exercises in draft order, the counter
reset to 0 for each exercise. -/
def collect_pending (exs : List ExerciseData) : List PendingSet :=
  exs.flatMap (fun ex => process_sets ex.definition_id 0 ex.sets)

/-- Handler `finish_workout` (POST /workouts/finish): converts the draft into
a `CompletedSession` plus `CompletedSet` rows and deletes the draft, all in
one transaction. -/
def finish_workout (u : Nat) (db : DB) : Except Err CompletedSessionRead × DB :=
  match find_draft db u with
  | none => (Except.error Err.notFound, db)
  | some draft =>
    let pending := collect_pending draft.session_data.exercises
    let total_session_score := (pending.map (fun p => p.epley_score)).sum
    let sid := db.next_id
    let completed_session : CompletedSession :=
      { id := sid
        user_id := u
        template_id := draft.template_id
        started_at := draft.started_at
        completed_at := db.now
        session_score := total_session_score }
    let completed_sets : List CompletedSet := pending.enum.map (fun p =>
      { id := sid + 1 + p.1
        session_id := sid
        exercise_definition_id := p.2.exercise_definition_id
        set_number := p.2.set_number
        reps := p.2.reps
        weight := p.2.weight
        epley_score := p.2.epley_score })
    let response : CompletedSessionRead :=
      { id := completed_session.id
        template_id := completed_session.template_id
        started_at := completed_session.started_at
        completed_at := completed_session.completed_at
        session_score := completed_session.session_score
        completed_sets := completed_sets.map (fun cs =>
          { id := cs.id
            exercise_definition_id := cs.exercise_definition_id
            set_number := cs.set_number
            reps := cs.reps
            weight := cs.weight
            epley_score := cs.epley_score }) }
    (Except.ok response,
      { db with
        drafts := db.drafts.filter (fun x => !(x.id == draft.id))
        completed_sessions := db.completed_sessions ++ [completed_session]
        completed_sets := db.completed_sets ++ completed_sets
        next_id := sid + 1 + pending.length })

/-- Handler `discard_draft` (DELETE /workouts/draft). -/
def discard_draft (u : Nat) (db : DB) : Except Err Unit × DB :=
  match find_draft db u with
  | none => (Except.error Err.notFound, db)
  | some d =>
    (Except.ok (), { db with drafts := db.drafts.filter (fun x => !(x.id == d.id)) })

/-- Response schema `SessionAnalytics`. -/
structure SessionAnalytics where
  id : Nat
  template_id : Option Nat
  template_name : Option String
  started_at : Nat
  completed_at : Nat
  session_score : Rat
deriving DecidableEq, Repr

/-- Response schema `SetAnalytics`. -/
structure SetAnalytics where
  set_number : Nat
  reps : Int
  weight : Rat
  epley_score : Rat
deriving DecidableEq, Repr

/-- Response schema `ExerciseSessionHistory`. -/
structure ExerciseSessionHistory where
  session_id : Nat
  date : Nat
  total_score : Rat
  sets : List SetAnalytics
deriving DecidableEq, Repr

/-- Response schema `ExerciseSummary`. -/
structure ExerciseSummary where
  exercise_id : Nat
  exercise_name : String
  total_sessions : Nat
  total_sets : Nat
  total_volume : Rat
  best_set_weight : Rat
  best_set_reps : Int
  best_set_epley_score : Rat
  average_session_score : Rat
  last_performed : Option Nat
deriving DecidableEq, Repr

/-- Relationship access `s.template` in `get_sessions_analytics`: resolve the
session's current template row, if any still exists. -/
def session_template (db : DB) (s : CompletedSession) : Option Template :=
  s.template_id.bind (fun tid => db.templates.find? (fun t => t.id == tid))

/-- Handler `get_sessions_analytics` (GET /analytics/sessions): the user's
completed sessions, optionally filtered by template, ordered by
`completed_at` descending, each annotated with the template's current name. -/
def get_sessions_analytics (u : Nat) (template_id : Option Nat) (db : DB) :
    List SessionAnalytics :=
  let q : List CompletedSession :=
    db.completed_sessions.filter (fun s => s.user_id == u)
  let filtered : List CompletedSession := match template_id with
    | some tid => q.filter (fun s => s.template_id == some tid)
    | none => q
  let ordered := filtered.mergeSort (fun a b => b.completed_at ≤ a.completed_at)
  ordered.map (fun s =>
    { id := s.id
      template_id := s.template_id
      template_name := (session_template db s).map (fun t => t.name)
      started_at := s.started_at
      completed_at := s.completed_at
      session_score := s.session_score })

/-- Relationship access `s.session.completed_at` on a `CompletedSet` (the
parent row exists by the foreign key; a dangling id yields the default 0,
which no claim depends on). -/
def set_session_date (db : DB) (s : CompletedSet) : Nat :=
  ((db.completed_sessions.find? (fun cs => cs.id == s.session_id)).map
    (fun cs => cs.completed_at)).getD 0

/-- Projection of a `CompletedSet` row into `SetAnalytics`. -/
def set_analytics (s : CompletedSet) : SetAnalytics :=
  { set_number := s.set_number
    reps := s.reps
    weight := s.weight
    epley_score := s.epley_score }

/-- One step of the `sessions_map` grouping dict in `get_exercise_history`:
insertion-ordered map from `session_id` to the accumulating history entry.
A new session id appends a fresh entry initialised from the set; an existing
one adds the set's score and appends the set. -/
def add_to_sessions_map (db : DB) (m : List ExerciseSessionHistory)
    (s : CompletedSet) : List ExerciseSessionHistory :=
  match m with
  | [] =>
    [{ session_id := s.session_id
       date := set_session_date db s
       total_score := s.epley_score
       sets := [set_analytics s] }]
  | e :: rest =>
    if e.session_id == s.session_id then
      { e with total_score := e.total_score + s.epley_score
               sets := e.sets ++ [set_analytics s] } :: rest
    else
      e :: add_to_sessions_map db rest s

/-- Handler `get_exercise_history` (GET /analytics/exercise/{id}/history):
404 unless the exercise is owned by the user; otherwise all completed sets
with that `exercise_definition_id` (ordered by session id then set number),
grouped by session, sorted oldest-first by date. -/
def get_exercise_history (u : Nat) (exercise_id : Nat) (db : DB) :
    Except Err (List ExerciseSessionHistory) × DB :=
  match find_owned_exercise db u exercise_id with
  | none => (Except.error Err.notFound, db)
  | some _ =>
    let sets := (db.completed_sets.filter
        (fun s => s.exercise_definition_id == exercise_id)).mergeSort
      (fun a b => a.session_id < b.session_id
        || (a.session_id == b.session_id && a.set_number ≤ b.set_number))
    let grouped := sets.foldl (add_to_sessions_map db) []
    (Except.ok (grouped.mergeSort (fun a b => a.date ≤ b.date)), db)

/-- Statistics fold of `get_exercise_summary` over the non-empty set list:
distinct session ids in first-encounter order, total volume, best set by
strict `epley_score` improvement, latest `completed_at`, and per-session
score sums as an insertion-ordered association list. -/
structure SummaryAcc where
  session_ids : List Nat
  total_volume : Rat
  best_set : CompletedSet
  last_performed : Nat
  session_scores : List (Nat × Rat)
deriving Repr

/-- Update the per-session score association list (`session_scores` dict). -/
def add_session_score (m : List (Nat × Rat)) (sid : Nat) (score : Rat) :
    List (Nat × Rat) :=
  match m with
  | [] => [(sid, score)]
  | (k, v) :: rest =>
    if k == sid then (k, v + score) :: rest
    else (k, v) :: add_session_score rest sid score

/-- One iteration of the statistics loop in `get_exercise_summary`. -/
def summary_step (db : DB) (acc : SummaryAcc) (s : CompletedSet) : SummaryAcc :=
  { session_ids :=
      if acc.session_ids.contains s.session_id then acc.session_ids
      else acc.session_ids ++ [s.session_id]
    total_volume := acc.total_volume + s.weight * (s.reps : Rat)
    best_set := if acc.best_set.epley_score < s.epley_score then s else acc.best_set
    last_performed :=
      if acc.last_performed < set_session_date db s then set_session_date db s
      else acc.last_performed
    session_scores := add_session_score acc.session_scores s.session_id s.epley_score }

/-- Handler `get_exercise_summary` (GET /analytics/exercise/{id}/summary):
404 unless the exercise is owned; an explicit all-zero/None summary when the
exercise has no completed sets; otherwise the aggregated statistics. -/
def get_exercise_summary (u : Nat) (exercise_id : Nat) (db : DB) :
    Except Err ExerciseSummary × DB :=
  match find_owned_exercise db u exercise_id with
  | none => (Except.error Err.notFound, db)
  | some ex =>
    let sets := db.completed_sets.filter
      (fun s => s.exercise_definition_id == exercise_id)
    match sets with
    | [] =>
      (Except.ok
        { exercise_id := ex.id
          exercise_name := ex.name
          total_sessions := 0
          total_sets := 0
          total_volume := 0
          best_set_weight := 0
          best_set_reps := 0
          best_set_epley_score := 0
          average_session_score := 0
          last_performed := none }, db)
    | s0 :: _ =>
      let init : SummaryAcc :=
        { session_ids := []
          total_volume := 0
          best_set := s0
          last_performed := set_session_date db s0
          session_scores := [] }
      let acc := sets.foldl (summary_step db) init
      let total_sessions := acc.session_ids.length
      let average_session_score :=
        if 0 < total_sessions then
          ((acc.session_scores.map (fun p => p.2)).sum) / (total_sessions : Rat)
        else 0
      (Except.ok
        { exercise_id := ex.id
          exercise_name := ex.name
          total_sessions := total_sessions
          total_sets := sets.length
          total_volume := acc.total_volume
          best_set_weight := acc.best_set.weight
          best_set_reps := acc.best_set.reps
          best_set_epley_score := acc.best_set.epley_score
          average_session_score := average_session_score
          last_performed := some acc.last_performed }, db)

end Rcpfit

namespace Rcpfit

/- The `Rat` operations are `@[irreducible]` in the library, which blocks
elaboration-time evaluation of concrete rational arithmetic; the kernel
itself unfolds them regardless.  Restoring default reducibility for this
file lets `decide` evaluate the handlers on concrete stores. -/
attribute [local semireducible] Rat.mul Rat.add Rat.inv Rat.sub

instance {ε α : Type} [DecidableEq ε] [DecidableEq α] : DecidableEq (Except ε α) :=
  fun x y =>
    match x, y with
    | Except.ok a, Except.ok b =>
      if h : a = b then Decidable.isTrue (by rw [h])
      else Decidable.isFalse (fun hc => h (Except.ok.inj hc))
    | Except.error a, Except.error b =>
      if h : a = b then Decidable.isTrue (by rw [h])
      else Decidable.isFalse (fun hc => h (Except.error.inj hc))
    | Except.ok _, Except.error _ => Decidable.isFalse (fun hc => Except.noConfusion hc)
    | Except.error _, Except.ok _ => Decidable.isFalse (fun hc => Except.noConfusion hc)

/-- The reps/weight pairs recorded by the `finish_workout` inner loop are
exactly those of the valid entries, in order. -/
theorem process_sets_pairs (d : Nat) (k : Nat) (sets : List SetData) :
    (process_sets d k sets).map (fun p => (p.reps, p.weight))
      = (sets.filter is_valid_set).map (fun s => (s.reps.getD 0, s.weight.getD 0)) := by
  induction sets generalizing k with
  | nil => simp [process_sets]
  | cons s rest ih =>
    by_cases h : is_valid_set s
    · simp [process_sets, h, List.filter_cons, ih]
    · simp [process_sets, h, List.filter_cons, ih]

/-- The set numbers produced by the inner loop started at counter `k` are the
dense range `k+1, k+2, …`, one per valid entry. -/
theorem process_sets_numbers (d : Nat) (k : Nat) (sets : List SetData) :
    (process_sets d k sets).map (fun p => p.set_number)
      = List.range' (k + 1) (sets.filter is_valid_set).length := by
  induction sets generalizing k with
  | nil => simp [process_sets]
  | cons s rest ih =>
    by_cases h : is_valid_set s
    · simp [process_sets, h, List.filter_cons, ih, List.range'_succ]
    · simp [process_sets, h, List.filter_cons, ih]

/-- Every pending set built by the inner loop carries the exercise's
definition id. -/
theorem process_sets_defid (d : Nat) (k : Nat) (sets : List SetData) :
    ∀ p ∈ process_sets d k sets, p.exercise_definition_id = d := by
  induction sets generalizing k with
  | nil => simp [process_sets]
  | cons s rest ih =>
    by_cases h : is_valid_set s
    · simp only [process_sets, h, if_true, List.mem_cons]
      rintro p (rfl | hp)
      · rfl
      · exact ih _ p hp
    · simp only [process_sets, h, if_false, Bool.false_eq_true]
      exact ih _

/-- Every pending set's score is the Epley score of its own reps and weight. -/
theorem process_sets_score (d : Nat) (k : Nat) (sets : List SetData) :
    ∀ p ∈ process_sets d k sets, p.epley_score = epley_score p.weight p.reps := by
  induction sets generalizing k with
  | nil => simp [process_sets]
  | cons s rest ih =>
    by_cases h : is_valid_set s
    · simp only [process_sets, h, if_true, List.mem_cons]
      rintro p (rfl | hp)
      · rfl
      · exact ih _ p hp
    · simp only [process_sets, h, if_false, Bool.false_eq_true]
      exact ih _

/-- Lift of `process_sets_score` to the whole draft. -/
theorem collect_pending_score (exs : List ExerciseData) :
    ∀ p ∈ collect_pending exs, p.epley_score = epley_score p.weight p.reps := by
  intro p hp
  rw [collect_pending, List.mem_flatMap] at hp
  obtain ⟨ex, _, hp⟩ := hp
  exact process_sets_score ex.definition_id 0 ex.sets p hp

/-- Mapping a function of the element over `enum` forgets the indices. -/
theorem enum_map_snd_comp {α β : Type} (l : List α) (f : α → β) :
    l.enum.map (fun p => f p.2) = l.map f := by
  have h : l.enum.map (fun p => f p.2) = (l.enum.map Prod.snd).map f := by
    rw [List.map_map]; rfl
  rw [h, List.enum_map_snd]

/-- The element of an `enum` pair is an element of the list. -/
theorem mem_of_mem_enum {α : Type} {l : List α} {q : Nat × α} (hq : q ∈ l.enum) :
    q.2 ∈ l := by
  have h := List.mem_map_of_mem Prod.snd hq
  rwa [List.enum_map_snd] at h

/-- A filter returning a singleton pins down `find?`. -/
theorem filter_eq_singleton_find? {α : Type} (p : α → Bool) (l : List α) (d : α)
    (h : l.filter p = [d]) : l.find? p = some d := by
  induction l with
  | nil => simp at h
  | cons a t ih =>
    by_cases hp : p a
    · rw [List.filter_cons_of_pos hp] at h
      rw [List.find?_cons_of_pos _ hp]
      simp at h
      exact congrArg some h.1
    · rw [List.filter_cons_of_neg hp] at h
      rw [List.find?_cons_of_neg _ hp]
      exact ih h

/-- The storage-level uniqueness constraint on `workout_drafts.user_id`: no
two distinct draft rows share a user. -/
def drafts_unique (db : DB) : Prop :=
  ∀ d1 ∈ db.drafts, ∀ d2 ∈ db.drafts, d1.user_id = d2.user_id → d1 = d2

/-- C1: Finish records exactly the valid sets.  A `SetEntry` is recorded iff
its reps and weight are both non-null and strictly positive; within each
exercise, recorded sets keep draft order, carry that exercise's definition
id, and are numbered densely `1, 2, …` with invalid entries consuming no
number; the outer loop restarts the counter at each exercise; and finishing
a draft whose exercises contain no valid set still succeeds, with
`session_score = 0` and no completed sets. -/
theorem claim_C1_finish_records_exactly_valid_sets :
    (∀ s : SetData, is_valid_set s = true ↔
        (∃ r, s.reps = some r ∧ 0 < r) ∧ (∃ w, s.weight = some w ∧ 0 < w))
    ∧ (∀ (d : Nat) (sets : List SetData),
        (process_sets d 0 sets).map (fun p => (p.reps, p.weight))
          = (sets.filter is_valid_set).map (fun s => (s.reps.getD 0, s.weight.getD 0))
        ∧ (process_sets d 0 sets).map (fun p => p.set_number)
          = List.range' 1 (sets.filter is_valid_set).length
        ∧ ∀ p ∈ process_sets d 0 sets, p.exercise_definition_id = d)
    ∧ (∀ exs : List ExerciseData,
        collect_pending exs
          = exs.flatMap (fun ex => process_sets ex.definition_id 0 ex.sets))
    ∧ ∀ (u : Nat) (db : DB) (draft : WorkoutDraft), find_draft db u = some draft →
        ∃ (r : CompletedSessionRead) (db' : DB),
          finish_workout u db = (Except.ok r, db')
          ∧ r.completed_sets.map
              (fun c => (c.exercise_definition_id, c.set_number, c.reps, c.weight))
            = (collect_pending draft.session_data.exercises).map
                (fun p => (p.exercise_definition_id, p.set_number, p.reps, p.weight))
          ∧ (collect_pending draft.session_data.exercises = [] →
              r.session_score = 0 ∧ r.completed_sets = []) := by
  refine ⟨?_, ?_, fun _ => rfl, ?_⟩
  · intro s
    obtain ⟨reps, weight, comp⟩ := s
    cases reps <;> cases weight <;> simp [is_valid_set]
  · intro d sets
    exact ⟨process_sets_pairs d 0 sets, process_sets_numbers d 0 sets,
      process_sets_defid d 0 sets⟩
  · intro u db draft h
    simp only [finish_workout, h]
    refine ⟨_, _, rfl, ?_, ?_⟩
    · simp only [List.map_map]
      exact enum_map_snd_comp (collect_pending draft.session_data.exercises)
        (fun q => (q.exercise_definition_id, q.set_number, q.reps, q.weight))
    · intro hemp
      simp [hemp]

/-- Fixture: a draft whose three set entries are all invalid (nulls, zero
weight, zero reps). -/
def all_invalid_draft : WorkoutDraft :=
  { id := 50, user_id := 1, template_id := none
    session_data := { exercises := [
      { definition_id := 3, name := "Row"
        sets := [ {}
                , { reps := some 0, weight := some 10 }
                , { reps := some 5, weight := some 0 } ] } ] }
    started_at := 2, updated_at := 3 }

/-- Fixture: store holding only `all_invalid_draft`. -/
def all_invalid_db : DB := { drafts := [all_invalid_draft], next_id := 60, now := 9 }

/-- Witness for C1: finishing the all-invalid draft succeeds with score 0 and
no completed sets. -/
theorem claim_C1_witness :
    ∃ (r : CompletedSessionRead) (db' : DB),
      finish_workout 1 all_invalid_db = (Except.ok r, db')
      ∧ r.session_score = 0 ∧ r.completed_sets = [] := by
  obtain ⟨r, db', heq, _, hemp⟩ :=
    claim_C1_finish_records_exactly_valid_sets.2.2.2 1 all_invalid_db
      all_invalid_draft (by decide)
  exact ⟨r, db', heq, (hemp (by decide)).1, (hemp (by decide)).2⟩

/-- C2: every completed set returned by Finish has
`epley_score = weight * (1 + reps / 30)` computed from its own recorded reps
and weight, and the returned `session_score` is exactly the sum of those
scores (so `0` when there are none). -/
theorem claim_C2_epley_and_session_score (u : Nat) (db : DB)
    (r : CompletedSessionRead) (db' : DB)
    (h : finish_workout u db = (Except.ok r, db')) :
    (∀ c ∈ r.completed_sets, c.epley_score = c.weight * (1 + (c.reps : Rat) / 30))
    ∧ r.session_score = (r.completed_sets.map (fun c => c.epley_score)).sum := by
  cases hfd : find_draft db u with
  | none => simp [finish_workout, hfd] at h
  | some draft =>
    simp only [finish_workout, hfd, Prod.mk.injEq, Except.ok.injEq] at h
    obtain ⟨hr, hdb⟩ := h
    subst hr
    constructor
    · intro c hc
      simp only [List.map_map, List.mem_map] at hc
      obtain ⟨q, hq, rfl⟩ := hc
      have hmem : q.2 ∈ collect_pending draft.session_data.exercises :=
        mem_of_mem_enum hq
      have hs := collect_pending_score draft.session_data.exercises q.2 hmem
      simpa [epley_score] using hs
    · simp only [List.map_map]
      exact (congrArg List.sum (enum_map_snd_comp
        (collect_pending draft.session_data.exercises) (fun q => q.epley_score))).symm

/-- Fixture: a draft with two valid sets (one invalid in between) for one
exercise. -/
def two_valid_draft : WorkoutDraft :=
  { id := 70, user_id := 1, template_id := none
    session_data := { exercises := [
      { definition_id := 7, name := "Bench"
        sets := [ { reps := some 5, weight := some 10 }
                , { reps := some 0, weight := some 10 }
                , { reps := some 10, weight := some 20 } ] } ] }
    started_at := 4, updated_at := 5 }

/-- Fixture: store holding only `two_valid_draft`. -/
def two_valid_db : DB := { drafts := [two_valid_draft], next_id := 80, now := 9 }

/-- The response Finish produces on `two_valid_db`. -/
def two_valid_response : CompletedSessionRead :=
  { id := 80, template_id := none, started_at := 4, completed_at := 9
    session_score := 115/3
    completed_sets := [
      { id := 81, exercise_definition_id := 7, set_number := 1, reps := 5
        weight := 10, epley_score := 35/3 }
    , { id := 82, exercise_definition_id := 7, set_number := 2, reps := 10
        weight := 20, epley_score := 80/3 } ] }

/-- The store Finish leaves behind on `two_valid_db`. -/
def two_valid_db_after : DB :=
  { drafts := []
    completed_sessions := [
      { id := 80, user_id := 1, template_id := none, started_at := 4
        completed_at := 9, session_score := 115/3 } ]
    completed_sets := [
      { id := 81, session_id := 80, exercise_definition_id := 7, set_number := 1
        reps := 5, weight := 10, epley_score := 35/3 }
    , { id := 82, session_id := 80, exercise_definition_id := 7, set_number := 2
        reps := 10, weight := 20, epley_score := 80/3 } ]
    next_id := 83, now := 9 }

/-- Witness for C2 at the concrete two-valid-set finish. -/
theorem claim_C2_witness :
    (∀ c ∈ two_valid_response.completed_sets,
        c.epley_score = c.weight * (1 + (c.reps : Rat) / 30))
    ∧ two_valid_response.session_score
      = (two_valid_response.completed_sets.map (fun c => c.epley_score)).sum :=
  claim_C2_epley_and_session_score 1 two_valid_db two_valid_response
    two_valid_db_after (by decide)

/-- C3: Start is idempotent when a draft exists.  If the user's draft rows
are exactly `[d]`, then `start_workout` with any `template_id` returns `d`'s
id and content, leaves the store untouched, and the user still has exactly
the one draft `d` afterwards. -/
theorem claim_C3_start_idempotent (u : Nat) (tid : Option Nat) (db : DB)
    (d : WorkoutDraft)
    (h : db.drafts.filter (fun x => x.user_id == u) = [d]) :
    start_workout u tid db = (Except.ok (draft_read d), db)
    ∧ (start_workout u tid db).2.drafts.filter (fun x => x.user_id == u) = [d] := by
  have hfd : find_draft db u = some d := filter_eq_singleton_find? _ _ _ h
  have h1 : start_workout u tid db = (Except.ok (draft_read d), db) := by
    simp only [start_workout, hfd]
  exact ⟨h1, by rw [h1]; exact h⟩

/-- Fixture: a store whose only draft belongs to user 1, next to an unrelated
template id passed to Start. -/
def existing_draft : WorkoutDraft :=
  { id := 10, user_id := 1, template_id := none
    session_data := { exercises := [] }, started_at := 1, updated_at := 1 }

/-- Fixture: store holding only `existing_draft`. -/
def existing_draft_db : DB := { drafts := [existing_draft], next_id := 20, now := 7 }

/-- Witness for C3: starting again, even with a template id, returns the
existing draft and changes nothing. -/
theorem claim_C3_witness :
    start_workout 1 (some 9) existing_draft_db
      = (Except.ok (draft_read existing_draft), existing_draft_db)
    ∧ (start_workout 1 (some 9) existing_draft_db).2.drafts.filter
        (fun x => x.user_id == 1) = [existing_draft] :=
  claim_C3_start_idempotent 1 (some 9) existing_draft_db existing_draft (by decide)

/-- C4: Finish converts the draft exactly once.  Under the per-user draft
uniqueness constraint, after a successful Finish the user's draft is gone:
Get fails NotFound and a second Finish fails NotFound. -/
theorem claim_C4_finish_exactly_once (u : Nat) (db : DB)
    (r : CompletedSessionRead) (db' : DB) (hw : drafts_unique db)
    (h : finish_workout u db = (Except.ok r, db')) :
    get_draft u db' = (Except.error Err.notFound, db')
    ∧ (finish_workout u db').1 = Except.error Err.notFound := by
  cases hfd : find_draft db u with
  | none => simp [finish_workout, hfd] at h
  | some draft =>
    simp only [finish_workout, hfd, Prod.mk.injEq, Except.ok.injEq] at h
    obtain ⟨hr, hdb⟩ := h
    have hfd' : db.drafts.find? (fun x => x.user_id == u) = some draft := hfd
    have hmem : draft ∈ db.drafts := List.mem_of_find?_eq_some hfd'
    have huser := List.find?_some hfd'
    have hnone : find_draft db' u = none := by
      rw [find_draft, List.find?_eq_none]
      intro x hx hxu
      rw [← hdb] at hx
      simp only [List.mem_filter] at hx
      have hx2 := hx.2
      have hxd : x = draft := by
        apply hw x hx.1 draft hmem
        have e1 : x.user_id = u := by simpa using hxu
        have e2 : draft.user_id = u := by simpa using huser
        rw [e1, e2]
      rw [hxd] at hx2
      simp at hx2
    constructor
    · simp [get_draft, hnone]
    · simp [finish_workout, hnone]

/-- Witness for C4 at the concrete two-valid-set finish: afterwards both Get
and Finish fail NotFound. -/
theorem claim_C4_witness :
    get_draft 1 two_valid_db_after = (Except.error Err.notFound, two_valid_db_after)
    ∧ (finish_workout 1 two_valid_db_after).1 = Except.error Err.notFound := by
  refine claim_C4_finish_exactly_once 1 two_valid_db two_valid_response
    two_valid_db_after ?_ (by decide)
  intro d1 h1 d2 h2 _
  simp only [two_valid_db] at h1 h2
  simp only [List.mem_singleton] at h1 h2
  rw [h1, h2]

/-- C5: the per-set score is `w * (1 + r / 30)` and, on the domain the system
uses it (`w > 0`, `r ≥ 1`), is strictly increasing in the weight for fixed
reps and strictly increasing in the reps for fixed weight. -/
theorem claim_C5_epley_monotone (w : Rat) (r : Int) (hw : 0 < w) (hr : 1 ≤ r) :
    epley_score w r = w * (1 + (r : Rat) / 30)
    ∧ (∀ w' : Rat, w < w' → epley_score w r < epley_score w' r)
    ∧ (∀ r' : Int, r < r' → epley_score w r < epley_score w r') := by
  have hr' : (1 : Rat) ≤ (r : Rat) := by exact_mod_cast hr
  refine ⟨rfl, ?_, ?_⟩
  · intro w' hww
    have hc : (0 : Rat) < 1 + (r : Rat) / 30 := by linarith
    exact mul_lt_mul_of_pos_right hww hc
  · intro r' hrr
    have hcast : (r : Rat) < (r' : Rat) := by exact_mod_cast hrr
    have hlt : 1 + (r : Rat) / 30 < 1 + (r' : Rat) / 30 := by linarith
    exact mul_lt_mul_of_pos_left hlt hw

/-- Witness for C5 at `w = 2`, `r = 1`: the formula value and both strict
increases. -/
theorem claim_C5_witness :
    epley_score 2 1 = 2 * (1 + (1 : Rat) / 30)
    ∧ epley_score 2 1 < epley_score 3 1
    ∧ epley_score 2 1 < epley_score 2 2 :=
  ⟨(claim_C5_epley_monotone 2 1 (by norm_num) (by norm_num)).1,
   (claim_C5_epley_monotone 2 1 (by norm_num) (by norm_num)).2.1 3 (by norm_num),
   (claim_C5_epley_monotone 2 1 (by norm_num) (by norm_num)).2.2 2 (by norm_num)⟩

/-- C6: adding an exercise whose `definition_id` is already present in the
draft fails with the duplicate conflict (HTTP 400) and leaves the store —
in particular every draft's exercise count — unchanged. -/
theorem claim_C6_duplicate_add_conflict (u defId : Nat) (db : DB)
    (d : WorkoutDraft) (ex : ExerciseDefinition)
    (h1 : find_draft db u = some d)
    (h2 : find_owned_exercise db u defId = some ex)
    (h3 : d.session_data.exercises.any (fun e => e.definition_id == defId) = true) :
    add_exercise_to_draft u defId db = (Except.error Err.badRequest, db)
    ∧ (add_exercise_to_draft u defId db).2.drafts.map
        (fun x => x.session_data.exercises.length)
      = db.drafts.map (fun x => x.session_data.exercises.length) := by
  have hex : ex.id = defId := by
    have h2' : db.exercise_definitions.find?
        (fun e => e.id == defId && e.user_id == u) = some ex := h2
    have hh := List.find?_some h2'
    simp at hh
    exact hh.1
  have h3' : d.session_data.exercises.any (fun e => e.definition_id == ex.id) = true := by
    rw [hex]; exact h3
  have heq : add_exercise_to_draft u defId db = (Except.error Err.badRequest, db) := by
    simp [add_exercise_to_draft, h1, h2, h3']
  exact ⟨heq, by rw [heq]⟩

/-- Fixture: a draft (user 1) already containing exercise definition 3. -/
def dup_draft : WorkoutDraft :=
  { id := 30, user_id := 1, template_id := none
    session_data := { exercises := [{ definition_id := 3, name := "Row", sets := [] }] }
    started_at := 1, updated_at := 1 }

/-- Fixture: store with `dup_draft` and the owned definition 3. -/
def dup_db : DB :=
  { exercise_definitions := [{ id := 3, user_id := 1, name := "Row" }]
    drafts := [dup_draft], next_id := 40, now := 2 }

/-- Witness for C6: the duplicate add fails with the conflict and the store
is untouched. -/
theorem claim_C6_witness :
    add_exercise_to_draft 1 3 dup_db = (Except.error Err.badRequest, dup_db)
    ∧ (add_exercise_to_draft 1 3 dup_db).2.drafts.map
        (fun x => x.session_data.exercises.length)
      = dup_db.drafts.map (fun x => x.session_data.exercises.length) :=
  claim_C6_duplicate_add_conflict 1 3 dup_db dup_draft
    { id := 3, user_id := 1, name := "Row" } (by decide) (by decide) (by decide)

/-- C7: ListSessions is ordered newest-first by `completed_at` and
ExerciseHistory oldest-first by session date, on every store — two total and
opposite orderings of completion dates. -/
theorem claim_C7_opposite_orderings :
    (∀ (u : Nat) (tid : Option Nat) (db : DB),
        (get_sessions_analytics u tid db).Pairwise
          (fun a b => b.completed_at ≤ a.completed_at))
    ∧ ∀ (u eid : Nat) (db : DB) (h : List ExerciseSessionHistory) (db' : DB),
        get_exercise_history u eid db = (Except.ok h, db') →
        h.Pairwise (fun a b => a.date ≤ b.date) := by
  constructor
  · intro u tid db
    simp only [get_sessions_analytics]
    rw [List.pairwise_map]
    refine List.Pairwise.imp ?_ (List.sorted_mergeSort ?_ ?_ _)
    · intro a b hab
      exact of_decide_eq_true hab
    · intro a b c hab hbc
      simp only [decide_eq_true_eq] at hab hbc ⊢
      omega
    · intro a b
      simp only [Bool.or_eq_true, decide_eq_true_eq]
      omega
  · intro u eid db h db' heq
    cases hex : find_owned_exercise db u eid with
    | none => simp [get_exercise_history, hex] at heq
    | some ex =>
      simp only [get_exercise_history, hex, Prod.mk.injEq, Except.ok.injEq] at heq
      obtain ⟨hh, _⟩ := heq
      subst hh
      refine List.Pairwise.imp ?_ (List.sorted_mergeSort ?_ ?_ _)
      · intro a b hab
        exact of_decide_eq_true hab
      · intro a b c hab hbc
        simp only [decide_eq_true_eq] at hab hbc ⊢
        omega
      · intro a b
        simp only [Bool.or_eq_true, decide_eq_true_eq]
        omega

/-- Fixture: three completed sessions of user 1 (completion dates 3, 1, 2 in
row order), each with one recorded set of exercise 1. -/
def three_sessions_db : DB :=
  { exercise_definitions := [{ id := 1, user_id := 1, name := "Squat" }]
    completed_sessions := [
      { id := 11, user_id := 1, template_id := none, started_at := 0
        completed_at := 3, session_score := 20 }
    , { id := 12, user_id := 1, template_id := none, started_at := 0
        completed_at := 1, session_score := 30 }
    , { id := 13, user_id := 1, template_id := none, started_at := 0
        completed_at := 2, session_score := 40 } ]
    completed_sets := [
      { id := 21, session_id := 11, exercise_definition_id := 1, set_number := 1
        reps := 30, weight := 10, epley_score := 20 }
    , { id := 22, session_id := 12, exercise_definition_id := 1, set_number := 1
        reps := 30, weight := 15, epley_score := 30 }
    , { id := 23, session_id := 13, exercise_definition_id := 1, set_number := 1
        reps := 30, weight := 20, epley_score := 40 } ]
    next_id := 200, now := 10 }

/-- The history ExerciseHistory returns on `three_sessions_db`: oldest first
(dates 1, 2, 3). -/
def three_sessions_history : List ExerciseSessionHistory :=
  [ { session_id := 12, date := 1, total_score := 30
      sets := [{ set_number := 1, reps := 30, weight := 15, epley_score := 30 }] }
  , { session_id := 13, date := 2, total_score := 40
      sets := [{ set_number := 1, reps := 30, weight := 20, epley_score := 40 }] }
  , { session_id := 11, date := 3, total_score := 20
      sets := [{ set_number := 1, reps := 30, weight := 10, epley_score := 20 }] } ]

/-- Witness for C7 on the three-session fixture: both orderings hold. -/
theorem claim_C7_witness :
    (get_sessions_analytics 1 none three_sessions_db).Pairwise
      (fun a b => b.completed_at ≤ a.completed_at)
    ∧ three_sessions_history.Pairwise (fun a b => a.date ≤ b.date) :=
  ⟨claim_C7_opposite_orderings.1 1 none three_sessions_db,
   claim_C7_opposite_orderings.2 1 1 three_sessions_db three_sessions_history
     three_sessions_db
     (by simp [get_exercise_history, find_owned_exercise, three_sessions_db,
        three_sessions_history, set_session_date, set_analytics,
        add_to_sessions_map, List.mergeSort, List.find?])⟩

/-- C8: ExerciseSummary on an owned exercise with zero completed sets
succeeds and returns the explicit empty summary: zero counts and volume,
zeroed best-set and average fields, `last_performed = none`. -/
theorem claim_C8_empty_summary (u eid : Nat) (db : DB) (ex : ExerciseDefinition)
    (h1 : find_owned_exercise db u eid = some ex)
    (h2 : db.completed_sets.filter (fun s => s.exercise_definition_id == eid) = []) :
    get_exercise_summary u eid db =
      (Except.ok
        { exercise_id := ex.id
          exercise_name := ex.name
          total_sessions := 0
          total_sets := 0
          total_volume := 0
          best_set_weight := 0
          best_set_reps := 0
          best_set_epley_score := 0
          average_session_score := 0
          last_performed := none }, db) := by
  simp [get_exercise_summary, h1, h2]

/-- Fixture: user 1 owns exercise 5 with no recorded sets (another
exercise's set is present). -/
def no_sets_db : DB :=
  { exercise_definitions := [{ id := 5, user_id := 1, name := "Curl" }
                            , { id := 6, user_id := 1, name := "Dip" }]
    completed_sessions := [
      { id := 11, user_id := 1, template_id := none, started_at := 0
        completed_at := 3, session_score := 20 } ]
    completed_sets := [
      { id := 21, session_id := 11, exercise_definition_id := 6, set_number := 1
        reps := 30, weight := 10, epley_score := 20 } ]
    next_id := 90, now := 4 }

/-- Witness for C8: the empty summary for exercise 5. -/
theorem claim_C8_witness :
    get_exercise_summary 1 5 no_sets_db =
      (Except.ok
        { exercise_id := 5
          exercise_name := "Curl"
          total_sessions := 0
          total_sets := 0
          total_volume := 0
          best_set_weight := 0
          best_set_reps := 0
          best_set_epley_score := 0
          average_session_score := 0
          last_performed := none }, no_sets_db) :=
  claim_C8_empty_summary 1 5 no_sets_db { id := 5, user_id := 1, name := "Curl" }
    (by decide) (by decide)

/-- Base store for the cross-user trace: exercise definition 1 belongs to
user 1; no drafts or history yet. -/
def cross_user_base : DB :=
  { exercise_definitions := [{ id := 1, user_id := 1, name := "Bench" }]
    next_id := 100, now := 5 }

/-- The payload user 2 pushes through Replace, referencing user 1's
exercise definition 1. -/
def cross_user_payload : SessionData :=
  { exercises := [
      { definition_id := 1, name := "Bench"
        sets := [{ reps := some 5, weight := some 10 }] } ] }

/-- Store after user 2 starts an empty workout. -/
def cross_user_db1 : DB := (start_workout 2 none cross_user_base).2

/-- Store after user 2 replaces the draft with `cross_user_payload`. -/
def cross_user_db2 : DB := (update_draft 2 cross_user_payload cross_user_db1).2

/-- Store after user 2 finishes: a CompletedSession of user 2 whose set
references user 1's exercise definition. -/
def cross_user_db3 : DB := (finish_workout 2 cross_user_db2).2

/-- C9 fails on the code: after the reachable trace
`start/update/finish` by user 2 with a payload naming user 1's exercise
definition, the only completed session belongs to user 2, yet user 1's
ExerciseHistory for that exercise returns it, and user 1's ExerciseSummary
counts its set — analytics queries filter completed sets by
`exercise_definition_id` only, never by the session's owner. -/
theorem claim_C9_cross_user_leak :
    cross_user_db3.completed_sessions.map (fun s => (s.id, s.user_id)) = [(101, 2)]
    ∧ (get_exercise_history 1 1 cross_user_db3).1
      = Except.ok [
        { session_id := 101, date := 5, total_score := 35/3
          sets := [{ set_number := 1, reps := 5, weight := 10, epley_score := 35/3 }] } ]
    ∧ (get_exercise_summary 1 1 cross_user_db3).1
      = Except.ok
        { exercise_id := 1, exercise_name := "Bench", total_sessions := 1
          total_sets := 1, total_volume := 50, best_set_weight := 10
          best_set_reps := 5, best_set_epley_score := 35/3
          average_session_score := 35/3, last_performed := some 5 } := by
  have hdb : cross_user_db3 =
      { exercise_definitions := [{ id := 1, user_id := 1, name := "Bench" }]
        completed_sessions := [
          { id := 101, user_id := 2, template_id := none, started_at := 5
            completed_at := 5, session_score := 35/3 } ]
        completed_sets := [
          { id := 102, session_id := 101, exercise_definition_id := 1
            set_number := 1, reps := 5, weight := 10, epley_score := 35/3 } ]
        next_id := 103, now := 5 } := by decide
  refine ⟨by decide, ?_, by decide⟩
  rw [hdb]
  simp [get_exercise_history, find_owned_exercise, set_session_date,
    set_analytics, add_to_sessions_map, List.mergeSort, List.find?]

/-- Fixture: user 2's empty draft before the duplicate-exercise Replace. -/
def dup_ids_draft : WorkoutDraft :=
  { id := 40, user_id := 2, template_id := none
    session_data := { exercises := [] }, started_at := 1, updated_at := 1 }

/-- Fixture: store holding `dup_ids_draft`. -/
def dup_ids_base : DB :=
  { exercise_definitions := [{ id := 1, user_id := 2, name := "Bench" }]
    drafts := [dup_ids_draft], next_id := 50, now := 3 }

/-- A Replace payload in which definition id 1 appears in two exercise
entries. -/
def dup_ids_payload : SessionData :=
  { exercises := [
      { definition_id := 1, name := "Bench"
        sets := [{ reps := some 5, weight := some 10 }] }
    , { definition_id := 1, name := "Bench"
        sets := [{ reps := some 8, weight := some 10 }] } ] }

/-- Store after user 2 replaces the draft with the duplicate payload. -/
def dup_ids_db2 : DB := (update_draft 2 dup_ids_payload dup_ids_base).2

/-- C10: only AddExercise enforces no-duplicate-exercise.  Replace accepts
any payload whenever a draft exists — including one repeating a
`definition_id` — and Finish restarts the `set_number` counter for each
entry, so one completed session can hold two sets with the same
`(exercise_definition_id, set_number)` pair. -/
theorem claim_C10_duplicates_via_replace :
    (∀ (u : Nat) (payload : SessionData) (db : DB) (d : WorkoutDraft),
        find_draft db u = some d →
        (update_draft u payload db).1 = Except.ok
          (draft_read { d with session_data := payload, updated_at := db.now }))
    ∧ ∃ r : CompletedSessionRead, (finish_workout 2 dup_ids_db2).1 = Except.ok r
        ∧ r.completed_sets.map (fun c => (c.exercise_definition_id, c.set_number))
          = [(1, 1), (1, 1)] := by
  constructor
  · intro u payload db d h
    simp only [update_draft, h]
  · refine ⟨
      { id := 50, template_id := none, started_at := 1, completed_at := 3
        session_score := 73/3
        completed_sets := [
          { id := 51, exercise_definition_id := 1, set_number := 1, reps := 5
            weight := 10, epley_score := 35/3 }
        , { id := 52, exercise_definition_id := 1, set_number := 1, reps := 8
            weight := 10, epley_score := 38/3 } ] }, by decide, by decide⟩

/-- Witness for C10: Replace on the concrete draft accepts the
duplicate-id payload unchanged. -/
theorem claim_C10_witness :
    (update_draft 2 dup_ids_payload dup_ids_base).1 = Except.ok
      (draft_read { dup_ids_draft with
        session_data := dup_ids_payload, updated_at := dup_ids_base.now }) :=
  claim_C10_duplicates_via_replace.1 2 dup_ids_payload dup_ids_base dup_ids_draft
    (by decide)

end Rcpfit
